import Mathlib

/-!
Verification of the `orbital_api` client library against its specification.

The development embeds the two components of `orbital_api/__init__.py`:

* `Postback`, a webhook-destination descriptor with a `validate` predicate
  and a `parse` function decoding a space-delimited positional encoding;
* `Client`, a thin HTTP wrapper holding connection configuration, a URL
  table (`get_url`), a generic authenticated request builder (`_req`),
  and one method per remote operation.

HTTP traffic is modelled by the request each method constructs (verb, URL,
headers, query parameters, TLS-verification flag) and by an abstract
response value carrying a status code and a decoded JSON body; the JSON
request bodies are opaque pass-through payloads and no claim concerns
them, so they are not modelled.
-/

/-- Postback descriptor: all fields are strings defaulting to empty,
mirroring the Python constructor. -/
structure Postback where
  webhookid : String
  URL : String
  token : String
  fingerprint : String
  format : String
  bucket : String
  region : String
  accesskey : String
  secretkey : String
deriving Repr, DecidableEq

/-- Embedding of `Postback.validate`: the ordered rule chain of the
source, one `if` per Python `if`. -/
def Postback.validate (p : Postback) : Bool :=
  if p.webhookid ≠ "" then true
  else if p.format ≠ "" ∧ p.format ≠ "ctim" ∧ p.format ≠ "splunk" ∧ p.format ≠ "s3" then false
  else if p.format ≠ "ctim" ∧ p.URL = "" then false
  else if p.format = "splunk" ∧ p.token = "" then false
  else if p.format = "s3" ∧
      (p.bucket = "" ∨ p.region = "" ∨ p.accesskey = "" ∨ p.secretkey = "") then false
  else true

/-- Python `str.split` with an explicit single-character separator:
splits at every occurrence of the separator and keeps empty pieces, so
the result is always non-empty (the empty input yields one empty piece). -/
def splitChars (sep : Char) : List Char → List (List Char)
  | [] => [[]]
  | c :: cs =>
    match splitChars sep cs with
    | [] => [[]]
    | w :: ws => if c = sep then [] :: w :: ws else (c :: w) :: ws

/-- Embedding of `data.split(" ")` from `Postback.parse`. -/
def pySplit (s : String) : List String :=
  (splitChars ' ' s.data).map String.mk

/-- Embedding of the token-normalisation loop of `Postback.parse`: a token
that is exactly a pair of single quotes or a pair of double quotes becomes
the empty string. -/
def normalizeToken (t : String) : String :=
  if t = "\x27\x27" ∨ t = "\"\"" then "" else t

/-- Body of `Postback.parse` after the split: the `len(tokens) > 8` guard,
then quote normalisation, then the positional-assignment branches for
lengths 8, 4, 3, 2, 1.  The Python branches `len > 4 → False` (covering
five to seven tokens) and the final `return False` (zero tokens) are the
wildcard case of the match. -/
def parseTokens (p : Postback) (tokens : List String) : Postback × Bool :=
  if tokens.length > 8 then (p, false)
  else
    match tokens.map normalizeToken with
    | [t0, t1, t2, t3, t4, t5, t6, t7] =>
      let q := { p with URL := t0, token := t1, fingerprint := t2, format := t3,
                        bucket := t4, region := t5, accesskey := t6, secretkey := t7 }
      (q, q.validate)
    | [t0, t1, t2, t3] =>
      let q := { p with URL := t0, token := t1, fingerprint := t2, format := t3 }
      (q, q.validate)
    | [t0, t1, t2] =>
      let q := { p with URL := t0, token := t1, fingerprint := t2 }
      (q, q.validate)
    | [t0, t1] =>
      let q := { p with URL := t0, token := t1 }
      (q, q.validate)
    | [t0] =>
      let q := { p with URL := t0 }
      (q, q.validate)
    | _ => (p, false)

/-- Embedding of `Postback.parse`. -/
def Postback.parse (p : Postback) (data : String) : Postback × Bool :=
  parseTokens p (pySplit data)

/-- Positional assignment by token count, as the spec describes it:
1 token sets `URL`; 2 set `URL, token`; 3 add `fingerprint`; 4 add
`format`; 8 add the four s3 fields.  Other shapes assign nothing. -/
def assignFields (p : Postback) (ts : List String) : Postback :=
  match ts with
  | [t0] => { p with URL := t0 }
  | [t0, t1] => { p with URL := t0, token := t1 }
  | [t0, t1, t2] => { p with URL := t0, token := t1, fingerprint := t2 }
  | [t0, t1, t2, t3] => { p with URL := t0, token := t1, fingerprint := t2, format := t3 }
  | [t0, t1, t2, t3, t4, t5, t6, t7] =>
    { p with URL := t0, token := t1, fingerprint := t2, format := t3,
             bucket := t4, region := t5, accesskey := t6, secretkey := t7 }
  | _ => p

/-- Specification-side mirror of `validate`, written from the ordered
rules of spec section 4.1 (rule 2 phrased with list membership, as the
spec states "not one of"). -/
def validateSpec (p : Postback) : Bool :=
  if p.webhookid ≠ "" then true
  else if p.format ≠ "" ∧ p.format ∉ (["ctim", "splunk", "s3"] : List String) then false
  else if p.format ≠ "ctim" ∧ p.URL = "" then false
  else if p.format = "splunk" ∧ p.token = "" then false
  else if p.format = "s3" ∧
      (p.bucket = "" ∨ p.region = "" ∨ p.accesskey = "" ∨ p.secretkey = "") then false
  else true

/-- Specification-side mirror of `parse`, written from the spec words:
split on single spaces, normalise quote pairs, accept exactly the token
counts 1, 2, 3, 4, 8 (assign positionally then validate), reject every
other count. -/
def parseSpec (p : Postback) (data : String) : Postback × Bool :=
  let ts := (pySplit data).map normalizeToken
  if ts.length = 1 ∨ ts.length = 2 ∨ ts.length = 3 ∨ ts.length = 4 ∨ ts.length = 8 then
    (assignFields p ts, (assignFields p ts).validate)
  else (p, false)

/-- Characterisation of `parseTokens` by token count. -/
theorem parseTokens_eq (p : Postback) (l : List String) :
    parseTokens p l =
      if (l.map normalizeToken).length = 1 ∨ (l.map normalizeToken).length = 2 ∨
          (l.map normalizeToken).length = 3 ∨ (l.map normalizeToken).length = 4 ∨
          (l.map normalizeToken).length = 8 then
        (assignFields p (l.map normalizeToken),
         (assignFields p (l.map normalizeToken)).validate)
      else (p, false) := by
  rcases l with _ | ⟨a, _ | ⟨b, _ | ⟨c, _ | ⟨d, _ | ⟨e, _ | ⟨f, _ | ⟨g, _ | ⟨h, _ | ⟨i, r⟩⟩⟩⟩⟩⟩⟩⟩⟩ <;>
    simp [parseTokens, assignFields, Nat.succ_lt_succ_iff]

/-- Client connection configuration, mirroring the Python constructor
fields (`verify` is the negation of the `insecure` argument). -/
structure Client where
  host : String
  verify : Bool
  token : String
  verbose : Bool
deriving Repr, DecidableEq

/-- Outgoing HTTP request as the client constructs it: verb, full URL,
headers, query parameters and the TLS-verification flag. -/
structure HttpRequest where
  verb : String
  url : String
  headers : List (String × String)
  params : List (String × String)
  verify : Bool
deriving Repr, DecidableEq

/-- Abstract HTTP response: the status code together with the decoded
JSON body, the latter of an arbitrary type `J`. -/
structure HttpResponse (J : Type) where
  status_code : Nat
  jsonBody : J

/-- The base64 alphabet, in order. -/
def base64Alphabet : List Char :=
  "ABCDEFGHIJKLMNOPQRSTUVWXYZabcdefghijklmnopqrstuvwxyz0123456789+/".data

/-- Character for a 6-bit value. -/
def b64char (n : Nat) : Char := base64Alphabet.getD n '='

/-- Standard base64 of a byte sequence, with `=` padding. -/
def base64Encode : List Nat → String
  | [] => ""
  | [a] => String.mk [b64char (a / 4), b64char (a % 4 * 16), '=', '=']
  | [a, b] => String.mk [b64char (a / 4), b64char (a % 4 * 16 + b / 16), b64char (b % 16 * 4), '=']
  | a :: b :: c :: rest =>
    String.mk [b64char (a / 4), b64char (a % 4 * 16 + b / 16),
               b64char (b % 16 * 4 + c / 64), b64char (c % 64)] ++ base64Encode rest

/-- Embedding of `base64.standard_b64encode` applied to the UTF-8 bytes
of a string, as the Python `login` does. -/
def standard_b64encode (s : String) : String :=
  base64Encode (s.toUTF8.toList.map (fun b => b.toNat))

/-- Embedding of `Client.get_url`: the URL table keyed by operation name,
`none` standing for the `raise` on an unknown operation (the lookup
default is the empty string, and an empty looked-up path raises). -/
def Client.get_url (c : Client) (operation uid uid2 : String) : Option String :=
  let url :=
    if operation = "logon" then "/v0/oauth2/token"
    else if operation = "ok" then "/v0/ok"
    else if operation = "probe" then "/v0/probe"
    else if operation = "query_create" then "/v0/query"
    else if operation = "query_disable" then "/v0/query/" ++ uid
    else if operation = "results" then "/v0/jobs/" ++ uid ++ "/results"
    else if operation = "stock" then "/v0/stock"
    else if operation = "webhook_post" then "/v0/webhooks"
    else if operation = "webhook_patch" then "/v0/webhooks/" ++ uid
    else if operation = "webhook_get" then "/v0/webhooks/" ++ uid
    else if operation = "webhook_list" then "/v0/webhooks"
    else if operation = "webhook_sendresult" then "/v0/webhooks/" ++ uid ++ "/results/" ++ uid2
    else if operation = "features_get" then "/v0/features/" ++ uid
    else if operation = "features_list" then "/v0/features"
    else ""
  if url = "" then none else some (c.host ++ url)

/-- The operation names appearing as keys of the `get_url` table. -/
def urlOps : List String :=
  ["logon", "ok", "probe", "query_create", "query_disable", "results", "stock",
   "webhook_post", "webhook_patch", "webhook_get", "webhook_list",
   "webhook_sendresult", "features_get", "features_list"]

/-- Embedding of `Client._req`: every request built through it carries the
JSON content type and the bearer token of the client at call time. -/
def Client._req (c : Client) (verb url : String) (params : List (String × String)) :
    HttpRequest :=
  { verb := verb, url := url,
    headers := [("Content-Type", "application/json"),
                ("Authorization", "Bearer " ++ c.token)],
    params := params, verify := c.verify }

/-- Embedding of `Client.login`: builds its request directly (Basic auth
from the base64 of the api key, no bearer token), does not touch the
client state, and returns the decoded JSON body. -/
def Client.login {J : Type} (c : Client) (apikey : String) (r : HttpResponse J) :
    Client × Option (HttpRequest × (J ⊕ Nat)) :=
  (c, (c.get_url "logon" "" "").map (fun u =>
    (({ verb := "POST", url := u,
        headers := [("Content-Type", "application/json"),
                    ("Authorization", "Basic " ++ standard_b64encode apikey)],
        params := [], verify := c.verify } : HttpRequest),
     Sum.inl r.jsonBody)))

/-- Embedding of `Client.ok`. -/
def Client.ok {J : Type} (c : Client) (r : HttpResponse J) :
    Client × Option (HttpRequest × (J ⊕ Nat)) :=
  (c, (c.get_url "ok" "" "").map (fun u => (c._req "GET" u [], Sum.inl r.jsonBody)))

/-- Embedding of `Client.probe` (the JSON body payload is not modelled). -/
def Client.probe {J : Type} (c : Client) (r : HttpResponse J) :
    Client × Option (HttpRequest × (J ⊕ Nat)) :=
  (c, (c.get_url "probe" "" "").map (fun u => (c._req "POST" u [], Sum.inl r.jsonBody)))

/-- Embedding of `Client.query_disable`: the one method returning the raw
status code of its response instead of the decoded JSON body. -/
def Client.query_disable {J : Type} (c : Client) (query_id : String) (r : HttpResponse J) :
    Client × Option (HttpRequest × (J ⊕ Nat)) :=
  (c, (c.get_url "query_disable" query_id "").map
    (fun u => (c._req "DELETE" u [], Sum.inr r.status_code)))

/-- Embedding of `Client.query_create` (the JSON body payload is not
modelled). -/
def Client.query_create {J : Type} (c : Client) (r : HttpResponse J) :
    Client × Option (HttpRequest × (J ⊕ Nat)) :=
  (c, (c.get_url "query_create" "" "").map (fun u => (c._req "POST" u [], Sum.inl r.jsonBody)))

/-- Embedding of `Client.results`: the `cursor` query parameter is added
only when the cursor argument is non-empty. -/
def Client.results {J : Type} (c : Client) (jobid cursor : String) (r : HttpResponse J) :
    Client × Option (HttpRequest × (J ⊕ Nat)) :=
  let params : List (String × String) := if cursor ≠ "" then [("cursor", cursor)] else []
  (c, (c.get_url "results" jobid "").map (fun u => (c._req "GET" u params, Sum.inl r.jsonBody)))

/-- Embedding of `Client.stock`. -/
def Client.stock {J : Type} (c : Client) (r : HttpResponse J) :
    Client × Option (HttpRequest × (J ⊕ Nat)) :=
  (c, (c.get_url "stock" "" "").map (fun u => (c._req "GET" u [], Sum.inl r.jsonBody)))

/-- Embedding of `Client.webhook_create` (body not modelled). -/
def Client.webhook_create {J : Type} (c : Client) (r : HttpResponse J) :
    Client × Option (HttpRequest × (J ⊕ Nat)) :=
  (c, (c.get_url "webhook_post" "" "").map (fun u => (c._req "POST" u [], Sum.inl r.jsonBody)))

/-- Embedding of `Client.webhook_update` (body not modelled). -/
def Client.webhook_update {J : Type} (c : Client) (wid : String) (r : HttpResponse J) :
    Client × Option (HttpRequest × (J ⊕ Nat)) :=
  (c, (c.get_url "webhook_patch" wid "").map (fun u => (c._req "PATCH" u [], Sum.inl r.jsonBody)))

/-- Embedding of `Client.webhook_get`. -/
def Client.webhook_get {J : Type} (c : Client) (wid : String) (r : HttpResponse J) :
    Client × Option (HttpRequest × (J ⊕ Nat)) :=
  (c, (c.get_url "webhook_get" wid "").map (fun u => (c._req "GET" u [], Sum.inl r.jsonBody)))

/-- Embedding of `Client.webhook_list`. -/
def Client.webhook_list {J : Type} (c : Client) (r : HttpResponse J) :
    Client × Option (HttpRequest × (J ⊕ Nat)) :=
  (c, (c.get_url "webhook_list" "" "").map (fun u => (c._req "GET" u [], Sum.inl r.jsonBody)))

/-- Embedding of `Client.webhook_sendresult`. -/
def Client.webhook_sendresult {J : Type} (c : Client) (webhookID resultID : String)
    (r : HttpResponse J) : Client × Option (HttpRequest × (J ⊕ Nat)) :=
  (c, (c.get_url "webhook_sendresult" webhookID resultID).map
    (fun u => (c._req "POST" u [], Sum.inl r.jsonBody)))

/-- Embedding of `Client.features_get`. -/
def Client.features_get {J : Type} (c : Client) (fid : String) (r : HttpResponse J) :
    Client × Option (HttpRequest × (J ⊕ Nat)) :=
  (c, (c.get_url "features_get" fid "").map (fun u => (c._req "GET" u [], Sum.inl r.jsonBody)))

/-- Embedding of `Client.features_list`. -/
def Client.features_list {J : Type} (c : Client) (r : HttpResponse J) :
    Client × Option (HttpRequest × (J ⊕ Nat)) :=
  (c, (c.get_url "features_list" "" "").map (fun u => (c._req "GET" u [], Sum.inl r.jsonBody)))

/-- Appending to a non-empty string yields a non-empty string. -/
theorem append_left_ne_empty (s t : String) (h : s ≠ "") : s ++ t ≠ "" := by
  intro hst
  apply h
  have hd : s.data ++ t.data = ([] : List Char) := congrArg String.data hst
  have hs : s.data = [] := (List.append_eq_nil.mp hd).1
  cases s
  simp_all

/-- Splitting never yields an empty token list. -/
theorem splitChars_ne_nil (sep : Char) (l : List Char) : splitChars sep l ≠ [] := by
  induction l with
  | nil => simp [splitChars]
  | cons c cs ih =>
    simp only [splitChars]
    rcases hw : splitChars sep cs with _ | ⟨w, ws⟩
    · simp
    · by_cases hc : c = sep <;> simp [hc]

/-- A list without the separator splits into itself alone. -/
theorem splitChars_of_not_mem (sep : Char) (l : List Char) (h : sep ∉ l) :
    splitChars sep l = [l] := by
  induction l with
  | nil => rfl
  | cons c cs ih =>
    simp only [List.mem_cons, not_or] at h
    simp only [splitChars, ih h.2]
    rw [if_neg (fun hc => h.1 hc.symm)]

/-- A non-empty string with no space splits into the single token itself. -/
theorem pySplit_single (t : String) (h : ' ' ∉ t.data) : pySplit t = [t] := by
  simp [pySplit, splitChars_of_not_mem ' ' t.data h]

/-- URL table entry for `logon`. -/
theorem get_url_logon (c : Client) (uid uid2 : String) :
    c.get_url "logon" uid uid2 = some (c.host ++ "/v0/oauth2/token") := rfl

/-- URL table entry for `ok`. -/
theorem get_url_ok (c : Client) (uid uid2 : String) :
    c.get_url "ok" uid uid2 = some (c.host ++ "/v0/ok") := rfl

/-- URL table entry for `probe`. -/
theorem get_url_probe (c : Client) (uid uid2 : String) :
    c.get_url "probe" uid uid2 = some (c.host ++ "/v0/probe") := rfl

/-- URL table entry for `query_create`. -/
theorem get_url_query_create (c : Client) (uid uid2 : String) :
    c.get_url "query_create" uid uid2 = some (c.host ++ "/v0/query") := rfl

/-- URL table entry for `query_disable`. -/
theorem get_url_query_disable (c : Client) (uid uid2 : String) :
    c.get_url "query_disable" uid uid2 = some (c.host ++ ("/v0/query/" ++ uid)) := by
  show (if ("/v0/query/" ++ uid) = "" then none else some (c.host ++ ("/v0/query/" ++ uid)))
      = some (c.host ++ ("/v0/query/" ++ uid))
  rw [if_neg (append_left_ne_empty _ _ (by decide))]

/-- URL table entry for `results`. -/
theorem get_url_results (c : Client) (uid uid2 : String) :
    c.get_url "results" uid uid2 = some (c.host ++ ("/v0/jobs/" ++ uid ++ "/results")) := by
  show (if ("/v0/jobs/" ++ uid ++ "/results") = "" then none
        else some (c.host ++ ("/v0/jobs/" ++ uid ++ "/results")))
      = some (c.host ++ ("/v0/jobs/" ++ uid ++ "/results"))
  rw [if_neg (append_left_ne_empty _ _ (append_left_ne_empty _ _ (by decide)))]

/-- URL table entry for `stock`. -/
theorem get_url_stock (c : Client) (uid uid2 : String) :
    c.get_url "stock" uid uid2 = some (c.host ++ "/v0/stock") := rfl

/-- URL table entry for `webhook_post`. -/
theorem get_url_webhook_post (c : Client) (uid uid2 : String) :
    c.get_url "webhook_post" uid uid2 = some (c.host ++ "/v0/webhooks") := rfl

/-- URL table entry for `webhook_patch`. -/
theorem get_url_webhook_patch (c : Client) (uid uid2 : String) :
    c.get_url "webhook_patch" uid uid2 = some (c.host ++ ("/v0/webhooks/" ++ uid)) := by
  show (if ("/v0/webhooks/" ++ uid) = "" then none
        else some (c.host ++ ("/v0/webhooks/" ++ uid)))
      = some (c.host ++ ("/v0/webhooks/" ++ uid))
  rw [if_neg (append_left_ne_empty _ _ (by decide))]

/-- URL table entry for `webhook_get`. -/
theorem get_url_webhook_get (c : Client) (uid uid2 : String) :
    c.get_url "webhook_get" uid uid2 = some (c.host ++ ("/v0/webhooks/" ++ uid)) := by
  show (if ("/v0/webhooks/" ++ uid) = "" then none
        else some (c.host ++ ("/v0/webhooks/" ++ uid)))
      = some (c.host ++ ("/v0/webhooks/" ++ uid))
  rw [if_neg (append_left_ne_empty _ _ (by decide))]

/-- URL table entry for `webhook_list`. -/
theorem get_url_webhook_list (c : Client) (uid uid2 : String) :
    c.get_url "webhook_list" uid uid2 = some (c.host ++ "/v0/webhooks") := rfl

/-- URL table entry for `webhook_sendresult`. -/
theorem get_url_webhook_sendresult (c : Client) (uid uid2 : String) :
    c.get_url "webhook_sendresult" uid uid2
      = some (c.host ++ ("/v0/webhooks/" ++ uid ++ "/results/" ++ uid2)) := by
  show (if ("/v0/webhooks/" ++ uid ++ "/results/" ++ uid2) = "" then none
        else some (c.host ++ ("/v0/webhooks/" ++ uid ++ "/results/" ++ uid2)))
      = some (c.host ++ ("/v0/webhooks/" ++ uid ++ "/results/" ++ uid2))
  rw [if_neg (append_left_ne_empty _ _
    (append_left_ne_empty _ _ (append_left_ne_empty _ _ (by decide))))]

/-- URL table entry for `features_get`. -/
theorem get_url_features_get (c : Client) (uid uid2 : String) :
    c.get_url "features_get" uid uid2 = some (c.host ++ ("/v0/features/" ++ uid)) := by
  show (if ("/v0/features/" ++ uid) = "" then none
        else some (c.host ++ ("/v0/features/" ++ uid)))
      = some (c.host ++ ("/v0/features/" ++ uid))
  rw [if_neg (append_left_ne_empty _ _ (by decide))]

/-- URL table entry for `features_list`. -/
theorem get_url_features_list (c : Client) (uid uid2 : String) :
    c.get_url "features_list" uid uid2 = some (c.host ++ "/v0/features") := rfl

/-- C1: `Postback.validate` is decided by the ordered rules of spec
section 4.1: non-empty `webhookid` short-circuits to valid; then an
unknown non-empty `format` is invalid; then an empty `URL` with format
other than `ctim` is invalid; then `splunk` without a token is invalid;
then `s3` missing any of bucket, region, accesskey, secretkey is
invalid; otherwise valid.  In particular a record with format `s3` and
only a bucket is invalid, and a record with a webhookid and a bogus
format is valid. -/
theorem validate_matches_spec_rules (p : Postback) :
    p.validate = validateSpec p ∧
    (Postback.mk "" "" "" "" "s3" "b" "" "" "").validate = false ∧
    (Postback.mk "x" "" "" "" "bogus" "" "" "" "").validate = true := by
  refine ⟨?_, by decide, by decide⟩
  simp only [Postback.validate, validateSpec, List.mem_cons, List.mem_singleton,
    List.not_mem_nil, or_false, not_or]

/-- C2: `Postback.parse` splits on single spaces, normalises the quote
pair tokens to empty strings, rejects token counts 5, 6, 7 and greater
than 8, and for counts 1, 2, 3, 4 and 8 assigns the tokens positionally
and returns the result of `validate`. -/
theorem parse_matches_spec (p : Postback) (data : String) :
    p.parse data = parseSpec p data :=
  parseTokens_eq p (pySplit data)

/-- C3 counterexample: the claim says a single-token parse returns true
if and only if `format` remains empty, but on a record whose prior
format is `ctim` the single-token parse `"u"` returns true while the
format is non-empty (and stays `ctim`). -/
theorem parse_single_token_iff_counterexample :
    ((Postback.mk "" "" "" "" "ctim" "" "" "" "").parse "u").2 = true ∧
    (Postback.mk "" "" "" "" "ctim" "" "" "" "").format ≠ "" ∧
    ((Postback.mk "" "" "" "" "ctim" "" "" "" "").parse "u").1.format = "ctim" ∧
    "u" ≠ "" ∧ ' ' ∉ "u".data := by
  refine ⟨rfl, by decide, rfl, by decide, by decide⟩

/-- C3 (amended): for any prior field state and a single-token input (a
non-empty string with no space that is not a quote pair), `parse` sets
only `URL` (to the token) and every other field retains its prior value,
and the call returns true precisely when the updated record validates:
the webhookid is non-empty, or the format is empty or `ctim`, or the
format is `splunk` with a non-empty token, or the format is `s3` with
all four s3 fields non-empty. -/
theorem parse_single_token (p : Postback) (t : String)
    (h1 : t ≠ "") (h2 : ' ' ∉ t.data) (h3 : t ≠ "\x27\x27") (h4 : t ≠ "\"\"") :
    p.parse t = ({ p with URL := t }, { p with URL := t }.validate) ∧
    ((p.parse t).2 = true ↔
      (p.webhookid ≠ "" ∨ p.format = "" ∨ p.format = "ctim" ∨
       (p.format = "splunk" ∧ p.token ≠ "") ∨
       (p.format = "s3" ∧ p.bucket ≠ "" ∧ p.region ≠ "" ∧
        p.accesskey ≠ "" ∧ p.secretkey ≠ ""))) := by
  have hnorm : normalizeToken t = t := by
    simp [normalizeToken, h3, h4]
  have hmain : p.parse t = ({ p with URL := t }, { p with URL := t }.validate) := by
    show parseTokens p (pySplit t) = _
    rw [pySplit_single t h2]
    simp [parseTokens, hnorm]
  refine ⟨hmain, ?_⟩
  rw [hmain]
  show ({ p with URL := t }).validate = true ↔ _
  simp only [Postback.validate]
  split_ifs with hw hf hu hs hs3 <;>
    simp_all <;> tauto

/-- Witness for C3 (amended): a concrete single-token parse on a record
whose prior format is `splunk` with a non-empty token. -/
theorem parse_single_token_witness :
    ("u" ≠ "" ∧ ' ' ∉ "u".data ∧ "u" ≠ "\x27\x27" ∧ "u" ≠ "\"\"") ∧
    ((Postback.mk "" "" "T" "" "splunk" "" "" "" "").parse "u" =
        ({ Postback.mk "" "" "T" "" "splunk" "" "" "" "" with URL := "u" },
         { Postback.mk "" "" "T" "" "splunk" "" "" "" "" with URL := "u" }.validate) ∧
      (((Postback.mk "" "" "T" "" "splunk" "" "" "" "").parse "u").2 = true ↔
        ((Postback.mk "" "" "T" "" "splunk" "" "" "" "").webhookid ≠ "" ∨
         (Postback.mk "" "" "T" "" "splunk" "" "" "" "").format = "" ∨
         (Postback.mk "" "" "T" "" "splunk" "" "" "" "").format = "ctim" ∨
         ((Postback.mk "" "" "T" "" "splunk" "" "" "" "").format = "splunk" ∧
          (Postback.mk "" "" "T" "" "splunk" "" "" "" "").token ≠ "") ∨
         ((Postback.mk "" "" "T" "" "splunk" "" "" "" "").format = "s3" ∧
          (Postback.mk "" "" "T" "" "splunk" "" "" "" "").bucket ≠ "" ∧
          (Postback.mk "" "" "T" "" "splunk" "" "" "" "").region ≠ "" ∧
          (Postback.mk "" "" "T" "" "splunk" "" "" "" "").accesskey ≠ "" ∧
          (Postback.mk "" "" "T" "" "splunk" "" "" "" "").secretkey ≠ "")))) :=
  ⟨⟨by decide, by decide, by decide, by decide⟩,
   parse_single_token (Postback.mk "" "" "T" "" "splunk" "" "" "" "") "u"
     (by decide) (by decide) (by decide) (by decide)⟩

/-- C4: `results` issues a GET whose URL is the host followed by
`/v0/jobs/{jobid}/results`; the query parameters are exactly
`cursor=<value>` when the cursor is non-empty and empty otherwise. -/
theorem results_request_shape {J : Type} (c : Client) (jobid cursor : String)
    (r : HttpResponse J) :
    ∃ req v, (c.results jobid cursor r).2 = some (req, v) ∧
      req.verb = "GET" ∧
      req.url = c.host ++ ("/v0/jobs/" ++ jobid ++ "/results") ∧
      req.params = (if cursor = "" then [] else [("cursor", cursor)]) := by
  refine ⟨c._req "GET" (c.host ++ ("/v0/jobs/" ++ jobid ++ "/results"))
      (if cursor ≠ "" then [("cursor", cursor)] else []),
    Sum.inl r.jsonBody, ?_, rfl, rfl, ?_⟩
  · simp only [Client.results, get_url_results]
    rfl
  · by_cases hc : cursor = "" <;> simp [Client._req, hc]

/-- C5: `query_disable` returns the raw status code of its DELETE
response to `/v0/query/{id}`, and it is the only operation method doing
so: every other method (login included) returns the decoded JSON body. -/
theorem query_disable_returns_status {J : Type} (c : Client)
    (qid jobid cursor wid rid fid apikey : String) (r : HttpResponse J) :
    (∃ req, (c.query_disable qid r).2 = some (req, Sum.inr r.status_code) ∧
      req.verb = "DELETE" ∧ req.url = c.host ++ ("/v0/query/" ++ qid)) ∧
    (∃ req, (c.login apikey r).2 = some (req, Sum.inl r.jsonBody)) ∧
    (∃ req, (c.ok r).2 = some (req, Sum.inl r.jsonBody)) ∧
    (∃ req, (c.probe r).2 = some (req, Sum.inl r.jsonBody)) ∧
    (∃ req, (c.query_create r).2 = some (req, Sum.inl r.jsonBody)) ∧
    (∃ req, (c.results jobid cursor r).2 = some (req, Sum.inl r.jsonBody)) ∧
    (∃ req, (c.stock r).2 = some (req, Sum.inl r.jsonBody)) ∧
    (∃ req, (c.webhook_create r).2 = some (req, Sum.inl r.jsonBody)) ∧
    (∃ req, (c.webhook_update wid r).2 = some (req, Sum.inl r.jsonBody)) ∧
    (∃ req, (c.webhook_get wid r).2 = some (req, Sum.inl r.jsonBody)) ∧
    (∃ req, (c.webhook_list r).2 = some (req, Sum.inl r.jsonBody)) ∧
    (∃ req, (c.webhook_sendresult wid rid r).2 = some (req, Sum.inl r.jsonBody)) ∧
    (∃ req, (c.features_get fid r).2 = some (req, Sum.inl r.jsonBody)) ∧
    (∃ req, (c.features_list r).2 = some (req, Sum.inl r.jsonBody)) := by
  refine ⟨?_, ?_, ?_, ?_, ?_, ?_, ?_, ?_, ?_, ?_, ?_, ?_, ?_, ?_⟩
  · refine ⟨c._req "DELETE" (c.host ++ ("/v0/query/" ++ qid)) [], ?_, rfl, rfl⟩
    simp only [Client.query_disable, get_url_query_disable]
    rfl
  · exact ⟨_, rfl⟩
  · exact ⟨_, rfl⟩
  · exact ⟨_, rfl⟩
  · exact ⟨_, rfl⟩
  · refine ⟨c._req "GET" (c.host ++ ("/v0/jobs/" ++ jobid ++ "/results"))
        (if cursor ≠ "" then [("cursor", cursor)] else []), ?_⟩
    simp only [Client.results, get_url_results]
    rfl
  · exact ⟨_, rfl⟩
  · exact ⟨_, rfl⟩
  · refine ⟨c._req "PATCH" (c.host ++ ("/v0/webhooks/" ++ wid)) [], ?_⟩
    simp only [Client.webhook_update, get_url_webhook_patch]
    rfl
  · refine ⟨c._req "GET" (c.host ++ ("/v0/webhooks/" ++ wid)) [], ?_⟩
    simp only [Client.webhook_get, get_url_webhook_get]
    rfl
  · exact ⟨_, rfl⟩
  · refine ⟨c._req "POST" (c.host ++ ("/v0/webhooks/" ++ wid ++ "/results/" ++ rid)) [], ?_⟩
    simp only [Client.webhook_sendresult, get_url_webhook_sendresult]
    rfl
  · refine ⟨c._req "GET" (c.host ++ ("/v0/features/" ++ fid)) [], ?_⟩
    simp only [Client.features_get, get_url_features_get]
    rfl
  · exact ⟨_, rfl⟩

/-- C6: the login request carries `Authorization: Basic <base64(apikey)>`
(and no bearer token), while every request built through `_req` — hence
every other operation request — carries `Content-Type: application/json`
and `Authorization: Bearer <token>` with the client token at call time. -/
theorem auth_headers {J : Type} (c : Client)
    (apikey verb url qid jobid cursor wid rid fid : String)
    (params : List (String × String)) (r : HttpResponse J) :
    (∃ req, (c.login apikey r).2 = some (req, Sum.inl r.jsonBody) ∧
      req.headers = [("Content-Type", "application/json"),
                     ("Authorization", "Basic " ++ standard_b64encode apikey)]) ∧
    (c._req verb url params).headers
      = [("Content-Type", "application/json"), ("Authorization", "Bearer " ++ c.token)] ∧
    (∃ req v, (c.ok r).2 = some (req, v) ∧ req.headers
      = [("Content-Type", "application/json"), ("Authorization", "Bearer " ++ c.token)]) ∧
    (∃ req v, (c.probe r).2 = some (req, v) ∧ req.headers
      = [("Content-Type", "application/json"), ("Authorization", "Bearer " ++ c.token)]) ∧
    (∃ req v, (c.query_create r).2 = some (req, v) ∧ req.headers
      = [("Content-Type", "application/json"), ("Authorization", "Bearer " ++ c.token)]) ∧
    (∃ req v, (c.query_disable qid r).2 = some (req, v) ∧ req.headers
      = [("Content-Type", "application/json"), ("Authorization", "Bearer " ++ c.token)]) ∧
    (∃ req v, (c.results jobid cursor r).2 = some (req, v) ∧ req.headers
      = [("Content-Type", "application/json"), ("Authorization", "Bearer " ++ c.token)]) ∧
    (∃ req v, (c.stock r).2 = some (req, v) ∧ req.headers
      = [("Content-Type", "application/json"), ("Authorization", "Bearer " ++ c.token)]) ∧
    (∃ req v, (c.webhook_create r).2 = some (req, v) ∧ req.headers
      = [("Content-Type", "application/json"), ("Authorization", "Bearer " ++ c.token)]) ∧
    (∃ req v, (c.webhook_update wid r).2 = some (req, v) ∧ req.headers
      = [("Content-Type", "application/json"), ("Authorization", "Bearer " ++ c.token)]) ∧
    (∃ req v, (c.webhook_get wid r).2 = some (req, v) ∧ req.headers
      = [("Content-Type", "application/json"), ("Authorization", "Bearer " ++ c.token)]) ∧
    (∃ req v, (c.webhook_list r).2 = some (req, v) ∧ req.headers
      = [("Content-Type", "application/json"), ("Authorization", "Bearer " ++ c.token)]) ∧
    (∃ req v, (c.webhook_sendresult wid rid r).2 = some (req, v) ∧ req.headers
      = [("Content-Type", "application/json"), ("Authorization", "Bearer " ++ c.token)]) ∧
    (∃ req v, (c.features_get fid r).2 = some (req, v) ∧ req.headers
      = [("Content-Type", "application/json"), ("Authorization", "Bearer " ++ c.token)]) ∧
    (∃ req v, (c.features_list r).2 = some (req, v) ∧ req.headers
      = [("Content-Type", "application/json"), ("Authorization", "Bearer " ++ c.token)]) := by
  refine ⟨⟨_, rfl, rfl⟩, rfl, ⟨_, _, rfl, rfl⟩, ⟨_, _, rfl, rfl⟩, ⟨_, _, rfl, rfl⟩,
    ?_, ?_, ⟨_, _, rfl, rfl⟩, ⟨_, _, rfl, rfl⟩, ?_, ?_, ⟨_, _, rfl, rfl⟩, ?_, ?_,
    ⟨_, _, rfl, rfl⟩⟩
  · refine ⟨c._req "DELETE" (c.host ++ ("/v0/query/" ++ qid)) [], Sum.inr r.status_code, ?_, rfl⟩
    simp only [Client.query_disable, get_url_query_disable]
    rfl
  · refine ⟨c._req "GET" (c.host ++ ("/v0/jobs/" ++ jobid ++ "/results"))
        (if cursor ≠ "" then [("cursor", cursor)] else []), Sum.inl r.jsonBody, ?_, rfl⟩
    simp only [Client.results, get_url_results]
    rfl
  · refine ⟨c._req "PATCH" (c.host ++ ("/v0/webhooks/" ++ wid)) [], Sum.inl r.jsonBody, ?_, rfl⟩
    simp only [Client.webhook_update, get_url_webhook_patch]
    rfl
  · refine ⟨c._req "GET" (c.host ++ ("/v0/webhooks/" ++ wid)) [], Sum.inl r.jsonBody, ?_, rfl⟩
    simp only [Client.webhook_get, get_url_webhook_get]
    rfl
  · refine ⟨c._req "POST" (c.host ++ ("/v0/webhooks/" ++ wid ++ "/results/" ++ rid)) [],
      Sum.inl r.jsonBody, ?_, rfl⟩
    simp only [Client.webhook_sendresult, get_url_webhook_sendresult]
    rfl
  · refine ⟨c._req "GET" (c.host ++ ("/v0/features/" ++ fid)) [], Sum.inl r.jsonBody, ?_, rfl⟩
    simp only [Client.features_get, get_url_features_get]
    rfl

/-- C7: `login` does not mutate the client state — token, host, verify
and verbose are all unchanged — and returns the decoded JSON body. -/
theorem login_preserves_client {J : Type} (c : Client) (apikey : String) (r : HttpResponse J) :
    (c.login apikey r).1.token = c.token ∧
    (c.login apikey r).1.host = c.host ∧
    (c.login apikey r).1.verify = c.verify ∧
    (c.login apikey r).1.verbose = c.verbose ∧
    ∃ req, (c.login apikey r).2 = some (req, Sum.inl r.jsonBody) :=
  ⟨rfl, rfl, rfl, rfl, _, rfl⟩

/-- C8: resolving an operation name that is not a key of the URL table
yields the error value (the `raise` path), and this path is unreachable
through the public methods: every one of them resolves successfully. -/
theorem get_url_unknown_is_error {J : Type} (c : Client)
    (operation uid uid2 apikey qid jobid cursor wid rid fid : String) (r : HttpResponse J)
    (h : operation ∉ urlOps) :
    c.get_url operation uid uid2 = none ∧
    (c.login apikey r).2.isSome = true ∧
    (c.ok r).2.isSome = true ∧
    (c.probe r).2.isSome = true ∧
    (c.query_create r).2.isSome = true ∧
    (c.query_disable qid r).2.isSome = true ∧
    (c.results jobid cursor r).2.isSome = true ∧
    (c.stock r).2.isSome = true ∧
    (c.webhook_create r).2.isSome = true ∧
    (c.webhook_update wid r).2.isSome = true ∧
    (c.webhook_get wid r).2.isSome = true ∧
    (c.webhook_list r).2.isSome = true ∧
    (c.webhook_sendresult wid rid r).2.isSome = true ∧
    (c.features_get fid r).2.isSome = true ∧
    (c.features_list r).2.isSome = true := by
  simp only [urlOps, List.mem_cons, List.not_mem_nil, or_false, not_or] at h
  obtain ⟨h1, h2, h3, h4, h5, h6, h7, h8, h9, h10, h11, h12, h13, h14⟩ := h
  refine ⟨?_, rfl, rfl, rfl, rfl, ?_, ?_, rfl, rfl, ?_, ?_, rfl, ?_, ?_, rfl⟩
  · simp [Client.get_url, h1, h2, h3, h4, h5, h6, h7, h8, h9, h10, h11, h12, h13, h14]
  · simp only [Client.query_disable, get_url_query_disable]
    rfl
  · simp only [Client.results, get_url_results]
    rfl
  · simp only [Client.webhook_update, get_url_webhook_patch]
    rfl
  · simp only [Client.webhook_get, get_url_webhook_get]
    rfl
  · simp only [Client.webhook_sendresult, get_url_webhook_sendresult]
    rfl
  · simp only [Client.features_get, get_url_features_get]
    rfl

/-- Witness for C8 at a concrete client, a concrete unknown operation
name and concrete identifiers. -/
theorem get_url_unknown_is_error_witness :
    ("frobnicate" ∉ urlOps) ∧
    ((Client.mk "h" true "t" false).get_url "frobnicate" "u1" "u2" = none ∧
     ((Client.mk "h" true "t" false).login "key" (HttpResponse.mk 200 (7 : Nat))).2.isSome = true ∧
     ((Client.mk "h" true "t" false).ok (HttpResponse.mk 200 (7 : Nat))).2.isSome = true ∧
     ((Client.mk "h" true "t" false).probe (HttpResponse.mk 200 (7 : Nat))).2.isSome = true ∧
     ((Client.mk "h" true "t" false).query_create (HttpResponse.mk 200 (7 : Nat))).2.isSome = true ∧
     ((Client.mk "h" true "t" false).query_disable "Q1" (HttpResponse.mk 200 (7 : Nat))).2.isSome = true ∧
     ((Client.mk "h" true "t" false).results "J1" "c9" (HttpResponse.mk 200 (7 : Nat))).2.isSome = true ∧
     ((Client.mk "h" true "t" false).stock (HttpResponse.mk 200 (7 : Nat))).2.isSome = true ∧
     ((Client.mk "h" true "t" false).webhook_create (HttpResponse.mk 200 (7 : Nat))).2.isSome = true ∧
     ((Client.mk "h" true "t" false).webhook_update "W1" (HttpResponse.mk 200 (7 : Nat))).2.isSome = true ∧
     ((Client.mk "h" true "t" false).webhook_get "W1" (HttpResponse.mk 200 (7 : Nat))).2.isSome = true ∧
     ((Client.mk "h" true "t" false).webhook_list (HttpResponse.mk 200 (7 : Nat))).2.isSome = true ∧
     ((Client.mk "h" true "t" false).webhook_sendresult "W1" "R1" (HttpResponse.mk 200 (7 : Nat))).2.isSome = true ∧
     ((Client.mk "h" true "t" false).features_get "F1" (HttpResponse.mk 200 (7 : Nat))).2.isSome = true ∧
     ((Client.mk "h" true "t" false).features_list (HttpResponse.mk 200 (7 : Nat))).2.isSome = true) :=
  ⟨by decide,
   get_url_unknown_is_error (Client.mk "h" true "t" false) "frobnicate" "u1" "u2"
     "key" "Q1" "J1" "c9" "W1" "R1" "F1" (HttpResponse.mk 200 (7 : Nat)) (by decide)⟩

/-- C9: `parse` is not atomic on validation failure.  For a token count
in {1, 2, 3, 4, 8} the positional fields are assigned first and the
result of `validate` on the overwritten record is returned, so a
validation failure still leaves the fields overwritten; only a
token-count failure (5, 6, 7 or more than 8 tokens) leaves every field
unchanged. -/
theorem parse_not_atomic (p : Postback) (data : String) :
    ((((pySplit data).map normalizeToken).length = 1 ∨
      ((pySplit data).map normalizeToken).length = 2 ∨
      ((pySplit data).map normalizeToken).length = 3 ∨
      ((pySplit data).map normalizeToken).length = 4 ∨
      ((pySplit data).map normalizeToken).length = 8) →
      p.parse data = (assignFields p ((pySplit data).map normalizeToken),
        (assignFields p ((pySplit data).map normalizeToken)).validate)) ∧
    ((((pySplit data).map normalizeToken).length = 5 ∨
      ((pySplit data).map normalizeToken).length = 6 ∨
      ((pySplit data).map normalizeToken).length = 7 ∨
      8 < ((pySplit data).map normalizeToken).length) →
      p.parse data = (p, false)) := by
  have hch := parseTokens_eq p (pySplit data)
  constructor
  · intro h
    show parseTokens p (pySplit data) = _
    rw [hch, if_pos h]
  · intro h
    show parseTokens p (pySplit data) = _
    rw [hch, if_neg]
    omega

/-- Witness for C9: a two-token input whose second token overwrites the
prior token field while the normalised first token empties the URL, so
validation fails but the prior URL and token values are already lost. -/
theorem parse_not_atomic_witness :
    (Postback.mk "" "x" "old" "" "" "" "" "" "").parse "\x27\x27 t"
      = (Postback.mk "" "" "t" "" "" "" "" "" "", false) := by
  rw [(parse_not_atomic (Postback.mk "" "x" "old" "" "" "" "" "" "") "\x27\x27 t").1
    (Or.inr (Or.inl (by decide)))]
  rfl

/-- C10: splitting always yields at least one token, so a zero-token
count is unreachable; on the empty input `parse` overwrites `URL` with
the empty string and returns the result of `validate` on that record,
which is false for a fresh Postback. -/
theorem parse_empty_string (p : Postback) (data : String) :
    0 < (pySplit data).length ∧
    p.parse "" = ({ p with URL := "" }, ({ p with URL := "" } : Postback).validate) ∧
    ((Postback.mk "" "" "" "" "" "" "" "" "").parse "").2 = false := by
  refine ⟨?_, ?_, rfl⟩
  · have h := splitChars_ne_nil ' ' data.data
    simp only [pySplit, List.length_map]
    exact List.length_pos.mpr h
  · rfl
